import Mathlib

/-!
Shallow embedding of the Free Sleep home-automation integration
(custom_components/free_sleep): the API client (`api.py`), the staged poll
coordinator (`coordinator.py`), and the entity operations the claims refer
to (`climate.py`, `number.py`, `cover.py`, `sensor.py`, `__init__.py`).

Conventions:
- JSON payloads are modelled by the inductive `Json` (objects as
  association lists, numbers as integers — every numeric field the claims
  touch is an integer in the API).
- Python truthiness (`if x := d.get(k)`) is modelled by `Json.truthy` /
  `getTruthy`.
- A network call made through `FreeSleepApiClient` is a `Request` value;
  an entity operation returns the list of requests it issues, so "zero
  network calls" is list emptiness.
- Fallible fetches are `Except ApiFailure Json`; the environment of one
  coordinator tick (`FetchEnv`) records what each endpoint would return.
- Python float arithmetic on the (integral / small rational) values the
  claims involve is modelled over `ℚ`; `int(x)` is `pyInt` (truncation
  toward zero).
-/

/-- JSON values, as produced/consumed by the device hub API.  Objects are
association lists; numbers are integers (the API fields involved in the
claims are all integral). -/
inductive Json where
  | null : Json
  | bool : Bool → Json
  | num : Int → Json
  | str : String → Json
  | obj : List (String × Json) → Json

/-- Python `dict.get(k)` on a JSON object: `none` when the key is absent
or the value is not an object. -/
def Json.lookup : Json → String → Option Json
  | .obj fields, k => fields.lookup k
  | _, _ => none

/-- Python truthiness of a JSON value: `None`, `False`, `0`, `""` and the
empty dict are falsy. -/
def Json.truthy : Json → Bool
  | .null => false
  | .bool b => b
  | .num n => n != 0
  | .str s => s != ""
  | .obj fields => !fields.isEmpty

/-- The pattern `if x := opt_value:` — present and truthy. -/
def getTruthy : Option Json → Option Json
  | some v => if v.truthy then some v else none
  | none => none

/-- Python `int(q)`: truncation toward zero. -/
def pyInt (q : ℚ) : Int :=
  if 0 ≤ q then ⌊q⌋ else ⌈q⌉

/-- Model of `FreeSleepApiError` (api.py): the single error kind raised by the API
client, carrying a human-readable message. -/
structure ApiFailure where
  msg : String
deriving DecidableEq

/-- One HTTP request issued through `FreeSleepApiClient`. -/
structure Request where
  method : String
  endpoint : String
  body : Option Json

/- ----------------------------------------------------------------
   api.py — FreeSleepApiClient
   ---------------------------------------------------------------- -/

/-- HTTP method, as dispatched inside `FreeSleepApiClient._request`. -/
inductive Method where
  | get : Method
  | post : Method
deriving DecidableEq

/-- What the transport layer produces for one call: a response with a
status code and an optional parseable JSON body (`none` = empty or
non-JSON body, so that `response.json()` raises), a timeout
(`asyncio.TimeoutError`), or an `aiohttp.ClientError` transport failure. -/
inductive HttpOutcome where
  | response : Nat → Option Json → HttpOutcome
  | timeout : HttpOutcome
  | transportFailure : String → HttpOutcome

/-- Message of the `aiohttp.ClientResponseError` that
`response.raise_for_status()` raises for a status `≥ 400`. -/
def raiseForStatusMsg (status : Nat) : String :=
  "HTTP status " ++ toString status

/-- Message of the `aiohttp.ContentTypeError` that `response.json()`
raises on an empty or non-JSON body. -/
def jsonDecodeMsg : String :=
  "unexpected mimetype"

/-- Embedding of `FreeSleepApiClient._request` (api.py lines 42-69): per-call timeout,
GET returns the parsed body, POST returns `none` on 204 and the parsed
body otherwise; `raise_for_status` errors (status ≥ 400), timeouts and
transport errors are all wrapped into `FreeSleepApiError`. -/
def FreeSleepApiClient.request (url : String) (method : Method)
    (outcome : HttpOutcome) : Except ApiFailure (Option Json) :=
  match outcome with
  | .timeout => .error ⟨"Timeout connecting to " ++ url⟩
  | .transportFailure m => .error ⟨"Error communicating with API: " ++ m⟩
  | .response status body =>
    if 400 ≤ status then
      .error ⟨"Error communicating with API: " ++ raiseForStatusMsg status⟩
    else
      match method with
      | .get =>
        match body with
        | some j => .ok (some j)
        | none => .error ⟨"Error communicating with API: " ++ jsonDecodeMsg⟩
      | .post =>
        if status == 204 then .ok none
        else
          match body with
          | some j => .ok (some j)
          | none => .error ⟨"Error communicating with API: " ++ jsonDecodeMsg⟩

/-- Embedding of `FreeSleepApiClient.async_set_base_position` (api.py lines 126-131):
the combined base-position write.  The values are passed through into the
payload unchanged. -/
def async_set_base_position (head feet feedRate : Json) : Request :=
  ⟨"POST", "/api/base-control", some (.obj
    [("head", head), ("feet", feet), ("feedRate", feedRate)])⟩

/-- Embedding of `FreeSleepApiClient.async_update_device_status`. -/
def async_update_device_status (data : Json) : Request :=
  ⟨"POST", "/api/deviceStatus", some data⟩

/-- Embedding of `FreeSleepApiClient.async_update_settings`. -/
def async_update_settings (data : Json) : Request :=
  ⟨"POST", "/api/settings", some data⟩

/- ----------------------------------------------------------------
   coordinator.py — FreeSleepDataUpdateCoordinator
   ---------------------------------------------------------------- -/

/-- const.py: update intervals in seconds. -/
def UPDATE_INTERVAL_DEVICE_STATUS : Nat := 5

def UPDATE_INTERVAL_BASE_CONTROL : Nat := 10

def UPDATE_INTERVAL_VITALS : Nat := 60

/-- const.py: base control limits used by the number entities. -/
def BASE_FEET_MIN : Int := 0

def BASE_FEED_RATE_DEFAULT : Int := 50

/-- The resources the coordinator can fetch on a tick (one entry per API
call actually issued). -/
inductive Resource where
  | deviceStatus : Resource
  | settings : Resource
  | schedules : Resource
  | baseControl : Resource
  | vitalsLeft : Resource
  | vitalsRight : Resource
deriving DecidableEq

/-- The mutable per-coordinator fields set in
`FreeSleepDataUpdateCoordinator.__init__`. -/
structure CoordState where
  vitalsCounter : Nat
  baseCounter : Nat
  settingsLoaded : Bool
  schedulesLoaded : Bool
deriving DecidableEq

/-- The `data` dict returned by `_async_update_data`: `device_status` is
always present, every other key is present only if fetched successfully
on this very tick. -/
structure SnapshotData where
  device_status : Json
  settings : Option Json
  schedules : Option Json
  base_control : Option Json
  vitals : Option (Json × Json)

/-- The coordinator: its counters/flags plus the last published snapshot
(the field `self.data` of the host DataUpdateCoordinator, `none` before the first
successful refresh). -/
structure Coordinator where
  state : CoordState
  data : Option SnapshotData

/-- A freshly constructed coordinator (both counters zero, both flags
false, nothing published). -/
def Coordinator.initial : Coordinator :=
  ⟨⟨0, 0, false, false⟩, none⟩

/-- What each endpoint would return if fetched during one tick. -/
structure FetchEnv where
  deviceStatus : Except ApiFailure Json
  settings : Except ApiFailure Json
  schedules : Except ApiFailure Json
  baseControl : Except ApiFailure Json
  vitalsLeft : Except ApiFailure Json
  vitalsRight : Except ApiFailure Json

/-- The `UpdateFailed` error raised when the mandatory fetch fails. -/
structure UpdateFailedErr where
  msg : String
deriving DecidableEq

/-- Coordinator lines 56-63: fetch `settings` only while the loaded flag
is false; on success store it and set the flag, on failure log at debug
level and leave the flag false.  Returns (stored value, new flag,
resources fetched). -/
def settingsStep (loaded : Bool) (r : Except ApiFailure Json) :
    Option Json × Bool × List Resource :=
  if loaded then (none, true, [])
  else
    match r with
    | .ok v => (some v, true, [.settings])
    | .error _ => (none, false, [.settings])

/-- Coordinator lines 65-72: same pattern for `schedules`. -/
def schedulesStep (loaded : Bool) (r : Except ApiFailure Json) :
    Option Json × Bool × List Resource :=
  if loaded then (none, true, [])
  else
    match r with
    | .ok v => (some v, true, [.schedules])
    | .error _ => (none, false, [.schedules])

/-- Coordinator lines 74-83: increment the base counter; once it reaches
`UPDATE_INTERVAL_BASE_CONTROL / UPDATE_INTERVAL_DEVICE_STATUS` reset it
to 0 and attempt the `base_control` fetch (failure is logged and the key
omitted).  Returns (stored value, new counter, resources fetched). -/
def baseStep (counter : Nat) (r : Except ApiFailure Json) :
    Option Json × Nat × List Resource :=
  let c1 := counter + 1
  if UPDATE_INTERVAL_BASE_CONTROL / UPDATE_INTERVAL_DEVICE_STATUS ≤ c1 then
    match r with
    | .ok v => (some v, 0, [.baseControl])
    | .error _ => (none, 0, [.baseControl])
  else (none, c1, [])

/-- Coordinator lines 85-99: increment the vitals counter; once it
reaches `UPDATE_INTERVAL_VITALS / UPDATE_INTERVAL_DEVICE_STATUS` reset it
to 0 and fetch vitals for side "left" then side "right" inside one try
block — the right fetch is attempted only if the left succeeded, and the
`vitals` key is stored only if both succeeded. -/
def vitalsStep (counter : Nat) (l r : Except ApiFailure Json) :
    Option (Json × Json) × Nat × List Resource :=
  let c1 := counter + 1
  if UPDATE_INTERVAL_VITALS / UPDATE_INTERVAL_DEVICE_STATUS ≤ c1 then
    match l with
    | .ok lv =>
      match r with
      | .ok rv => (some (lv, rv), 0, [.vitalsLeft, .vitalsRight])
      | .error _ => (none, 0, [.vitalsLeft, .vitalsRight])
    | .error _ => (none, 0, [.vitalsLeft])
  else (none, c1, [])

/-- One coordinator tick:
`FreeSleepDataUpdateCoordinator._async_update_data` (coordinator.py lines
46-102) combined with the refresh machinery of the host, which replaces
`self.data` only when the update function returns.  Yields the updated
coordinator, the list of resources fetched (in call order), and either
the new snapshot or the `UpdateFailed` error. -/
def tick (c : Coordinator) (env : FetchEnv) :
    Coordinator × List Resource × Except UpdateFailedErr SnapshotData :=
  match env.deviceStatus with
  | .error e =>
    (c, [.deviceStatus],
      .error ⟨"Error communicating with API: " ++ e.msg⟩)
  | .ok ds =>
    let s := c.state
    let st := settingsStep s.settingsLoaded env.settings
    let sc := schedulesStep s.schedulesLoaded env.schedules
    let bc := baseStep s.baseCounter env.baseControl
    let vt := vitalsStep s.vitalsCounter env.vitalsLeft env.vitalsRight
    let snap : SnapshotData := ⟨ds, st.1, sc.1, bc.1, vt.1⟩
    (⟨⟨vt.2.1, bc.2.1, st.2.1, sc.2.1⟩, some snap⟩,
      .deviceStatus :: (st.2.2 ++ sc.2.2 ++ bc.2.2 ++ vt.2.2),
      .ok snap)

/-- Embedding of `async_refresh_settings` (coordinator.py lines 104-107): clear the
settings loaded-flag so the next tick re-fetches. -/
def async_refresh_settings (c : Coordinator) : Coordinator :=
  ⟨⟨c.state.vitalsCounter, c.state.baseCounter, false,
    c.state.schedulesLoaded⟩, c.data⟩

/-- Embedding of `async_refresh_schedules` (coordinator.py lines 109-112). -/
def async_refresh_schedules (c : Coordinator) : Coordinator :=
  ⟨⟨c.state.vitalsCounter, c.state.baseCounter, c.state.settingsLoaded,
    false⟩, c.data⟩

/-- Run a list of ticks, collecting the resources fetched on each. -/
def runTicks (c : Coordinator) : List FetchEnv → Coordinator × List (List Resource)
  | [] => (c, [])
  | e :: rest =>
    let t := tick c e
    let r := runTicks t.1 rest
    (r.1, t.2.1 :: r.2)

/-- State after `n` ticks driven by the environment sequence `envs`. -/
def stateAfter (envs : Nat → FetchEnv) (c : Coordinator) : Nat → Coordinator
  | 0 => c
  | n + 1 => (tick (stateAfter envs c n) (envs n)).1

/-- Resources fetched on the `n`-th tick (1-indexed) of a run driven by
`envs` from coordinator `c`. -/
def fetchedOnTick (envs : Nat → FetchEnv) (c : Coordinator) (n : Nat) :
    List Resource :=
  (tick (stateAfter envs c (n - 1)) (envs (n - 1))).2.1

/-- Number of calls to the settings endpoint across the fetch lists of a run. -/
def settingsCalls (atts : List (List Resource)) : Nat :=
  (atts.map (List.count .settings)).sum

/-- Number of calls to the schedules endpoint across the fetch lists of
a run. -/
def schedulesCalls (atts : List (List Resource)) : Nat :=
  (atts.map (List.count .schedules)).sum

/- ----------------------------------------------------------------
   climate.py — FreeSleepClimate.async_set_temperature
   ---------------------------------------------------------------- -/

/-- Embedding of `FreeSleepClimate.async_set_temperature` (climate.py lines 147-167).
Input: the last coordinator snapshot, the side of the entity, and the
`temperature` kwarg (absent → return immediately).  Output: the API
requests issued and whether `async_request_refresh` was requested.  The
away-mode guard walks `data["settings"][side]["awayMode"]` with Python
walrus-truthiness at each step; when it fires the method returns after
logging, issuing no request and requesting no refresh. -/
def async_set_temperature (data : SnapshotData) (side : String)
    (temperature : Option ℚ) : List Request × Bool :=
  match temperature with
  | none => ([], false)
  | some t =>
    let awayGuard :=
      match getTruthy data.settings with
      | some st =>
        match getTruthy (st.lookup side) with
        | some ss =>
          match getTruthy (ss.lookup "awayMode") with
          | some _ => true
          | none => false
        | none => false
      | none => false
    if awayGuard then ([], false)
    else
      ([async_update_device_status (.obj
          [(side, .obj [("targetTemperatureF", .num (pyInt t))])])],
        true)

/- ----------------------------------------------------------------
   number.py — FreeSleepBaseHeadNumber.async_set_native_value
   ---------------------------------------------------------------- -/

/-- Embedding of `FreeSleepBaseHeadNumber.async_set_native_value` (number.py lines
187-198): read the current feet angle from the `base_control` entry of the snapshot
(defaulting to `BASE_FEET_MIN` when the key or the snapshot entry is
absent) and issue one combined write through
`async_set_base_position(int(value), feet, BASE_FEED_RATE_DEFAULT)`. -/
def base_head_set_native_value (data : SnapshotData) (value : ℚ) :
    List Request × Bool :=
  let feet : Json :=
    match getTruthy data.base_control with
    | some bc => (bc.lookup "feet").getD (.num BASE_FEET_MIN)
    | none => .num BASE_FEET_MIN
  ([async_set_base_position (.num (pyInt value)) feet
      (.num BASE_FEED_RATE_DEFAULT)], true)

/- ----------------------------------------------------------------
   cover.py — FreeSleepBaseCover position properties
   ---------------------------------------------------------------- -/

/-- Embedding of `FreeSleepBaseCover.current_cover_position` (cover.py lines 75-82):
`if head := base_control.get("head"): return int((head / 60) * 100)`,
else `None`.  The walrus truthiness test makes a numeric 0 fall through
to `None`. -/
def current_cover_position (data : SnapshotData) : Option Int :=
  match getTruthy data.base_control with
  | some bc =>
    match bc.lookup "head" with
    | some (.num h) =>
      if h = 0 then none else some (pyInt ((h : ℚ) / 60 * 100))
    | _ => none
  | none => none

/-- Embedding of `FreeSleepBaseCover.current_cover_tilt_position` (cover.py lines
84-91): same pattern over the feet angle, scaled by 45. -/
def current_cover_tilt_position (data : SnapshotData) : Option Int :=
  match getTruthy data.base_control with
  | some bc =>
    match bc.lookup "feet" with
    | some (.num f) =>
      if f = 0 then none else some (pyInt ((f : ℚ) / 45 * 100))
    | _ => none
  | none => none

/- ----------------------------------------------------------------
   sensor.py — _calculate_water_level_percentage
   ---------------------------------------------------------------- -/

/-- The `waterLevelRaw` dict of the device status, with each field
optionally absent.  The fields are numeric in the API; Python float
arithmetic on them is modelled over `ℚ`. -/
structure WaterLevelRaw where
  raw : Option ℚ
  calibratedEmpty : Option ℚ
  calibratedFull : Option ℚ

/-- Embedding of `_calculate_water_level_percentage` (sensor.py lines 186-200): absent
`waterLevelRaw` or any absent field → `None`; a non-positive calibration
span (`calibratedFull <= calibratedEmpty`) → `None`; otherwise the linear
percentage clamped by `max(0, min(100, percentage))`. -/
def calculate_water_level_percentage (wlr : Option WaterLevelRaw) :
    Option ℚ :=
  match wlr with
  | none => none
  | some w =>
    match w.raw, w.calibratedEmpty, w.calibratedFull with
    | some raw, some ce, some cf =>
      if cf ≤ ce then none
      else some (max 0 (min 100 ((raw - ce) / (cf - ce) * 100)))
    | _, _, _ => none

/- ----------------------------------------------------------------
   __init__.py — away-mode service handlers
   ---------------------------------------------------------------- -/

/-- Serialization of an optional service-call value: Python `None`
becomes JSON `null`. -/
def jsonOfOptStr : Option String → Json
  | some s => .str s
  | none => .null

/-- Embedding of `handle_enable_away_mode` (init module lines 107-120): one settings
write bundling the three fields for the side. -/
def handle_enable_away_mode (side : String)
    (away_start away_return : Option String) : Request :=
  async_update_settings (.obj
    [(side, .obj
      [("awayMode", .bool true),
       ("awayStart", jsonOfOptStr away_start),
       ("awayReturn", jsonOfOptStr away_return)])])

/-- Embedding of `handle_disable_away_mode` (init module lines 122-133): one settings
write clearing all three fields for the side. -/
def handle_disable_away_mode (side : String) : Request :=
  async_update_settings (.obj
    [(side, .obj
      [("awayMode", .bool false),
       ("awayStart", .null),
       ("awayReturn", .null)])])

/- ----------------------------------------------------------------
   Helper lemmas
   ---------------------------------------------------------------- -/

/-- A successful key lookup implies the object is truthy (a non-empty
dict). -/
theorem truthy_of_lookup {j : Json} {k : String} {v : Json}
    (h : j.lookup k = some v) : j.truthy = true := by
  cases j with
  | obj fields =>
    cases fields with
    | nil => simp [Json.lookup, List.lookup] at h
    | cons p rest => simp [Json.truthy]
  | null => simp [Json.lookup] at h
  | bool b => simp [Json.lookup] at h
  | num n => simp [Json.lookup] at h
  | str s => simp [Json.lookup] at h

/-- A fetch environment where every endpoint fails. -/
def envAllFail : FetchEnv :=
  ⟨.error ⟨"boom"⟩, .error ⟨"boom"⟩, .error ⟨"boom"⟩,
   .error ⟨"boom"⟩, .error ⟨"boom"⟩, .error ⟨"boom"⟩⟩

/-- A fetch environment where every endpoint succeeds. -/
def envAllOk : FetchEnv :=
  ⟨.ok (.obj [("left", .obj [("isOn", .bool true)])]),
   .ok (.obj [("left", .obj [("awayMode", .bool false)])]),
   .ok (.obj [("left", .obj [])]),
   .ok (.obj [("head", .num 10), ("feet", .num 5)]),
   .ok (.obj [("avgHeartRate", .num 60)]),
   .ok (.obj [("avgHeartRate", .num 62)])⟩

/- ----------------------------------------------------------------
   Claim theorems
   ---------------------------------------------------------------- -/

/-- Claim C1: if the mandatory `device_status` fetch fails, the tick
raises a single `UpdateFailed` error wrapping the client error, no other
resource fetch is attempted on that tick, and the coordinator (counters,
flags, and the previously published snapshot) is left exactly as it
was — the last-known-good snapshot remains published. -/
theorem tick_mandatory_failure (c : Coordinator) (env : FetchEnv)
    (e : ApiFailure) (h : env.deviceStatus = .error e) :
    tick c env =
      (c, [Resource.deviceStatus],
        .error ⟨"Error communicating with API: " ++ e.msg⟩) := by
  simp [tick, h]

/-- Witness for C1: a concrete coordinator with a published snapshot,
ticked against an all-failing environment. -/
theorem tick_mandatory_failure_witness :
    tick Coordinator.initial envAllFail =
      (Coordinator.initial, [Resource.deviceStatus],
        .error ⟨"Error communicating with API: " ++ "boom"⟩) :=
  tick_mandatory_failure Coordinator.initial envAllFail ⟨"boom"⟩ rfl

/-- Claim C4: the water-level percentage is 50 at
`raw=50, empty=0, full=100`; it is absent whenever
`calibratedFull ≤ calibratedEmpty`; whenever `calibratedFull >
calibratedEmpty` the result is present and clamped into `[0, 100]`; and
the out-of-range input `raw=150, empty=0, full=100` clamps to 100. -/
theorem water_level_percentage_spec :
    (calculate_water_level_percentage (some ⟨some 50, some 0, some 100⟩)
        = some 50)
    ∧ (∀ raw ce cf : ℚ, cf ≤ ce →
        calculate_water_level_percentage (some ⟨some raw, some ce, some cf⟩)
          = none)
    ∧ (∀ raw ce cf : ℚ, ce < cf →
        ∃ p, calculate_water_level_percentage
            (some ⟨some raw, some ce, some cf⟩) = some p
          ∧ 0 ≤ p ∧ p ≤ 100)
    ∧ (calculate_water_level_percentage (some ⟨some 150, some 0, some 100⟩)
        = some 100) := by
  refine ⟨?_, ?_, ?_, ?_⟩
  · simp [calculate_water_level_percentage]
    norm_num
  · intro raw ce cf h
    simp [calculate_water_level_percentage, h]
  · intro raw ce cf h
    refine ⟨max 0 (min 100 ((raw - ce) / (cf - ce) * 100)), ?_, ?_, ?_⟩
    · simp [calculate_water_level_percentage, not_le.mpr h]
    · exact le_max_left 0 _
    · exact max_le (by norm_num) (min_le_left _ _)
  · simp [calculate_water_level_percentage]
    norm_num

/-- Witness for C4: the clamping clause applied at the inverted
calibration `empty=20, full=10` and at the proper calibration
`empty=0, full=10`. -/
theorem water_level_percentage_spec_witness :
    (calculate_water_level_percentage (some ⟨some 30, some 20, some 10⟩)
        = none)
    ∧ ∃ p, calculate_water_level_percentage (some ⟨some 5, some 0, some 10⟩)
          = some p ∧ 0 ≤ p ∧ p ≤ 100 :=
  ⟨water_level_percentage_spec.2.1 30 20 10 (by norm_num),
   water_level_percentage_spec.2.2.1 5 0 10 (by norm_num)⟩

/-- Claim C5: setting a temperature on a side whose last-snapshot
settings entry has `awayMode = true` issues zero requests through the
client and requests no refresh — the coordinator snapshot is left
untouched; the rejection is purely local. -/
theorem set_temperature_away_mode (data : SnapshotData) (side : String)
    (st ss : Json) (t : ℚ)
    (hs : data.settings = some st)
    (hside : st.lookup side = some ss)
    (haw : ss.lookup "awayMode" = some (.bool true)) :
    async_set_temperature data side (some t) = ([], false) := by
  have h1 : st.truthy = true := truthy_of_lookup hside
  have h2 : ss.truthy = true := truthy_of_lookup haw
  have h3 : (Json.bool true).truthy = true := rfl
  simp [async_set_temperature, getTruthy, hs, h1, hside, h2, haw, h3]

/-- Witness for C5: a concrete snapshot with the left side in away
mode. -/
theorem set_temperature_away_mode_witness :
    async_set_temperature
      ⟨.obj [], some (.obj [("left", .obj [("awayMode", .bool true)])]),
        none, none, none⟩ "left" (some 72) = ([], false) :=
  set_temperature_away_mode _ "left" _ _ 72 rfl rfl rfl

/-- Claim C9 (implicit): when the snapshot has no `settings` key at all,
the away-mode guard cannot fire and `async_set_temperature` issues the
device-status write unconditionally (and requests a refresh), whatever
the actual away state of the device is. -/
theorem set_temperature_no_settings (data : SnapshotData) (side : String)
    (t : ℚ) (h : data.settings = none) :
    async_set_temperature data side (some t) =
      ([async_update_device_status (.obj
          [(side, .obj [("targetTemperatureF", .num (pyInt t))])])],
        true) := by
  simp [async_set_temperature, getTruthy, h]

/-- Witness for C9: a snapshot without settings, side left, 72 degrees. -/
theorem set_temperature_no_settings_witness :
    async_set_temperature ⟨.obj [], none, none, none, none⟩ "left"
        (some 72) =
      ([async_update_device_status (.obj
          [("left", .obj [("targetTemperatureF", .num (pyInt 72))])])],
        true) :=
  set_temperature_no_settings ⟨.obj [], none, none, none, none⟩ "left" 72
    rfl

/-- Claim C6: setting the base head angle to 30 issues exactly one
combined write (head 30, feet 10, feedRate 50) when the `base_control`
of the snapshot has `feet = 10`, and (head 30, feet 0, feedRate 50) when
the snapshot has no `base_control` entry — never a head-only payload. -/
theorem base_head_combined_write (data1 data2 : SnapshotData) (bc : Json)
    (h1 : data1.base_control = some bc)
    (h2 : bc.lookup "feet" = some (.num 10))
    (h3 : data2.base_control = none) :
    base_head_set_native_value data1 30 =
      ([⟨"POST", "/api/base-control", some (.obj
          [("head", .num 30), ("feet", .num 10), ("feedRate", .num 50)])⟩],
        true)
    ∧ base_head_set_native_value data2 30 =
      ([⟨"POST", "/api/base-control", some (.obj
          [("head", .num 30), ("feet", .num 0), ("feedRate", .num 50)])⟩],
        true) := by
  have hb : bc.truthy = true := truthy_of_lookup h2
  constructor
  · simp [base_head_set_native_value, getTruthy, h1, hb, h2,
      async_set_base_position, BASE_FEED_RATE_DEFAULT, pyInt]
  · simp [base_head_set_native_value, getTruthy, h3,
      async_set_base_position, BASE_FEET_MIN, BASE_FEED_RATE_DEFAULT,
      pyInt]

/-- Witness for C6: concrete snapshots with `feet = 10` and with no
`base_control`. -/
theorem base_head_combined_write_witness :
    base_head_set_native_value
      ⟨.obj [], none, none, some (.obj [("head", .num 20),
        ("feet", .num 10)]), none⟩ 30 =
      ([⟨"POST", "/api/base-control", some (.obj
          [("head", .num 30), ("feet", .num 10), ("feedRate", .num 50)])⟩],
        true)
    ∧ base_head_set_native_value ⟨.obj [], none, none, none, none⟩ 30 =
      ([⟨"POST", "/api/base-control", some (.obj
          [("head", .num 30), ("feet", .num 0), ("feedRate", .num 50)])⟩],
        true) :=
  base_head_combined_write _ _ _ rfl rfl rfl

/-- Claim C7: for every side and for every pair of start/return values
supplied when away mode was enabled, the payload of the disable write is
exactly `awayMode=false, awayStart=null, awayReturn=null` — the enable
start/return values of the enable call do not survive into the disable payload. -/
theorem disable_away_mode_clears_fields (side : String)
    (away_start away_return : Option String) :
    handle_enable_away_mode side away_start away_return =
      async_update_settings (.obj
        [(side, .obj
          [("awayMode", .bool true),
           ("awayStart", jsonOfOptStr away_start),
           ("awayReturn", jsonOfOptStr away_return)])])
    ∧ handle_disable_away_mode side =
      ⟨"POST", "/api/settings", some (.obj
        [(side, .obj
          [("awayMode", .bool false),
           ("awayStart", .null),
           ("awayReturn", .null)])])⟩ :=
  ⟨rfl, rfl⟩

/-- Claim C10 (implicit): whenever the `base_control` of the snapshot has
`head = 0` the cover reports its position as `none` (unknown), and
whenever `feet = 0` the tilt position is `none` — a fully flat base is
indistinguishable from missing position data, because presence is tested
by Python truthiness of the angle. -/
theorem cover_position_zero_angle (data : SnapshotData) (bc : Json)
    (hh : data.base_control = some bc)
    (h0 : bc.lookup "head" = some (.num 0)) :
    current_cover_position data = none
    ∧ (∀ bc2 : Json, ∀ data2 : SnapshotData,
        data2.base_control = some bc2 →
        bc2.lookup "feet" = some (.num 0) →
        current_cover_tilt_position data2 = none) := by
  have hb : bc.truthy = true := truthy_of_lookup h0
  constructor
  · simp [current_cover_position, getTruthy, hh, hb, h0]
  · intro bc2 data2 hd2 hf2
    have hb2 : bc2.truthy = true := truthy_of_lookup hf2
    simp [current_cover_tilt_position, getTruthy, hd2, hb2, hf2]

/-- Witness for C10: a flat base (`head = 0`, `feet = 0`). -/
theorem cover_position_zero_angle_witness :
    current_cover_position
      ⟨.obj [], none, none, some (.obj [("head", .num 0),
        ("feet", .num 0)]), none⟩ = none
    ∧ (∀ bc2 : Json, ∀ data2 : SnapshotData,
        data2.base_control = some bc2 →
        bc2.lookup "feet" = some (.num 0) →
        current_cover_tilt_position data2 = none) :=
  cover_position_zero_angle _ _ rfl rfl

/-- Counterexample for C8: a GET that receives a body-less 204 success
response does not yield `none` — `response.json()` fails on the empty
body and the call surfaces the wrapped `FreeSleepApiError`; only the
POST branch of `_request` special-cases 204. -/
theorem request_get_204_counterexample :
    FreeSleepApiClient.request "http://pod.local/api/deviceStatus"
        Method.get (.response 204 none) =
      .error ⟨"Error communicating with API: " ++ jsonDecodeMsg⟩ := rfl

/-- Claim C8 (amended): a POST receiving a 204 success yields `none`
rather than a parse error; and every HTTP error status (≥ 400, the
statuses `raise_for_status` rejects), every timeout and every transport
error fails with the single `FreeSleepApiError` kind carrying a
human-readable cause — callers never see a raw transport exception. -/
theorem request_error_wrapping (url : String) :
    (∀ body, FreeSleepApiClient.request url .post (.response 204 body)
        = .ok none)
    ∧ (∀ method status body, 400 ≤ status →
        FreeSleepApiClient.request url method (.response status body)
          = .error ⟨"Error communicating with API: "
              ++ raiseForStatusMsg status⟩)
    ∧ (∀ method, FreeSleepApiClient.request url method .timeout
        = .error ⟨"Timeout connecting to " ++ url⟩)
    ∧ (∀ method msg,
        FreeSleepApiClient.request url method (.transportFailure msg)
          = .error ⟨"Error communicating with API: " ++ msg⟩) := by
  refine ⟨?_, ?_, ?_, ?_⟩
  · intro body
    simp [FreeSleepApiClient.request]
  · intro method status body h
    simp [FreeSleepApiClient.request, h]
  · intro method
    rfl
  · intro method msg
    rfl

/-- Witness for C8 (amended): concrete POST/204, GET/404, timeout and
transport-failure calls. -/
theorem request_error_wrapping_witness :
    (FreeSleepApiClient.request "http://pod.local/api/settings" .post
        (.response 204 none) = .ok none)
    ∧ (FreeSleepApiClient.request "http://pod.local/api/settings" .get
        (.response 404 none)
        = .error ⟨"Error communicating with API: "
            ++ raiseForStatusMsg 404⟩)
    ∧ (FreeSleepApiClient.request "http://pod.local/api/settings" .get
        .timeout
        = .error ⟨"Timeout connecting to http://pod.local/api/settings"⟩)
    ∧ (FreeSleepApiClient.request "http://pod.local/api/settings" .get
        (.transportFailure "connection reset")
        = .error ⟨"Error communicating with API: connection reset"⟩) :=
  ⟨(request_error_wrapping "http://pod.local/api/settings").1 none,
   (request_error_wrapping "http://pod.local/api/settings").2.1 .get 404
     none (by decide),
   (request_error_wrapping "http://pod.local/api/settings").2.2.1 .get,
   (request_error_wrapping "http://pod.local/api/settings").2.2.2 .get
     "connection reset"⟩

/- ----------------------------------------------------------------
   Step characterization lemmas for the coordinator
   ---------------------------------------------------------------- -/

/-- Success of an `Except` as a Bool. -/
def exceptOk {α β : Type} : Except α β → Bool
  | .ok _ => true
  | .error _ => false

/-- All six endpoint fetches of an environment succeed. -/
def FetchEnv.allOk (env : FetchEnv) : Prop :=
  exceptOk env.deviceStatus = true ∧ exceptOk env.settings = true
    ∧ exceptOk env.schedules = true ∧ exceptOk env.baseControl = true
    ∧ exceptOk env.vitalsLeft = true ∧ exceptOk env.vitalsRight = true

instance (env : FetchEnv) : Decidable env.allOk := by
  unfold FetchEnv.allOk
  infer_instance

theorem settingsStep_fetches (loaded : Bool) (r : Except ApiFailure Json) :
    (settingsStep loaded r).2.2
      = if loaded then [] else [Resource.settings] := by
  cases loaded <;> cases r <;> rfl

theorem settingsStep_flag (loaded : Bool) (r : Except ApiFailure Json) :
    (settingsStep loaded r).2.1
      = (loaded || exceptOk r) := by
  cases loaded <;> cases r <;> rfl

theorem schedulesStep_fetches (loaded : Bool) (r : Except ApiFailure Json) :
    (schedulesStep loaded r).2.2
      = if loaded then [] else [Resource.schedules] := by
  cases loaded <;> cases r <;> rfl

theorem schedulesStep_flag (loaded : Bool) (r : Except ApiFailure Json) :
    (schedulesStep loaded r).2.1
      = (loaded || exceptOk r) := by
  cases loaded <;> cases r <;> rfl

theorem baseStep_counter (c : Nat) (r : Except ApiFailure Json) :
    (baseStep c r).2.1 = if 2 ≤ c + 1 then 0 else c + 1 := by
  have h2 : UPDATE_INTERVAL_BASE_CONTROL / UPDATE_INTERVAL_DEVICE_STATUS
      = 2 := rfl
  simp only [baseStep, h2]
  split
  · cases r <;> rfl
  · rfl

theorem baseStep_fetches (c : Nat) (r : Except ApiFailure Json) :
    (baseStep c r).2.2
      = if 2 ≤ c + 1 then [Resource.baseControl] else [] := by
  have h2 : UPDATE_INTERVAL_BASE_CONTROL / UPDATE_INTERVAL_DEVICE_STATUS
      = 2 := rfl
  simp only [baseStep, h2]
  split
  · cases r <;> rfl
  · rfl

theorem vitalsStep_counter (c : Nat) (l r : Except ApiFailure Json) :
    (vitalsStep c l r).2.1 = if 12 ≤ c + 1 then 0 else c + 1 := by
  have h12 : UPDATE_INTERVAL_VITALS / UPDATE_INTERVAL_DEVICE_STATUS
      = 12 := rfl
  simp only [vitalsStep, h12]
  split
  · cases l <;> cases r <;> rfl
  · rfl

theorem vitalsStep_fetches (c : Nat) (l r : Except ApiFailure Json) :
    (vitalsStep c l r).2.2
      = if 12 ≤ c + 1 then
          (match l with
            | .ok _ => [Resource.vitalsLeft, Resource.vitalsRight]
            | .error _ => [Resource.vitalsLeft])
        else [] := by
  have h12 : UPDATE_INTERVAL_VITALS / UPDATE_INTERVAL_DEVICE_STATUS
      = 12 := rfl
  simp only [vitalsStep, h12]
  split
  · cases l <;> cases r <;> rfl
  · rfl

/-- The fetch list of a tick whose mandatory fetch succeeded, fully
characterized by the pre-tick state and the environment. -/
theorem tick_fetches (c : Coordinator) (env : FetchEnv) (ds : Json)
    (hds : env.deviceStatus = .ok ds) :
    (tick c env).2.1 = .deviceStatus ::
      ((if c.state.settingsLoaded then [] else [Resource.settings])
        ++ (if c.state.schedulesLoaded then [] else [Resource.schedules])
        ++ (if 2 ≤ c.state.baseCounter + 1 then [Resource.baseControl]
            else [])
        ++ (if 12 ≤ c.state.vitalsCounter + 1 then
              (match env.vitalsLeft with
                | .ok _ => [Resource.vitalsLeft, Resource.vitalsRight]
                | .error _ => [Resource.vitalsLeft])
            else [])) := by
  simp only [tick, hds, settingsStep_fetches, schedulesStep_fetches,
    baseStep_fetches, vitalsStep_fetches]

/-- The counters and flags after a tick whose mandatory fetch
succeeded. -/
theorem tick_state (c : Coordinator) (env : FetchEnv) (ds : Json)
    (hds : env.deviceStatus = .ok ds) :
    (tick c env).1.state =
      ⟨if 12 ≤ c.state.vitalsCounter + 1 then 0
          else c.state.vitalsCounter + 1,
        if 2 ≤ c.state.baseCounter + 1 then 0 else c.state.baseCounter + 1,
        c.state.settingsLoaded || exceptOk env.settings,
        c.state.schedulesLoaded || exceptOk env.schedules⟩ := by
  simp only [tick, hds, settingsStep_flag, schedulesStep_flag,
    baseStep_counter, vitalsStep_counter]

/-- Once one tick has been fetched with the settings flag set, the flag
survives the tick and no settings call is made on it. -/
theorem tick_keeps_settings_loaded (c : Coordinator) (env : FetchEnv)
    (h : c.state.settingsLoaded = true) :
    (tick c env).1.state.settingsLoaded = true ∧
      List.count Resource.settings (tick c env).2.1 = 0 := by
  cases hds : env.deviceStatus with
  | error e => simp [tick, hds, h]
  | ok ds =>
    refine ⟨?_, ?_⟩
    · rw [tick_state c env ds hds]
      simp [h]
    · rw [tick_fetches c env ds hds]
      simp only [h, if_true]
      cases env.vitalsLeft <;> split_ifs <;> rfl

/-- Same for the schedules flag. -/
theorem tick_keeps_schedules_loaded (c : Coordinator) (env : FetchEnv)
    (h : c.state.schedulesLoaded = true) :
    (tick c env).1.state.schedulesLoaded = true ∧
      List.count Resource.schedules (tick c env).2.1 = 0 := by
  cases hds : env.deviceStatus with
  | error e => simp [tick, hds, h]
  | ok ds =>
    refine ⟨?_, ?_⟩
    · rw [tick_state c env ds hds]
      simp [h]
    · rw [tick_fetches c env ds hds]
      simp only [h, if_true]
      cases env.vitalsLeft <;> split_ifs <;> rfl

/-- A run started with the settings flag set never calls the settings
endpoint. -/
theorem runTicks_settings_loaded (envs : List FetchEnv) :
    ∀ c : Coordinator, c.state.settingsLoaded = true →
      settingsCalls (runTicks c envs).2 = 0 := by
  induction envs with
  | nil => intro c _; rfl
  | cons e rest ih =>
    intro c h
    have h1 := tick_keeps_settings_loaded c e h
    simp only [runTicks, settingsCalls, List.map_cons, List.sum_cons]
    have h2 := ih (tick c e).1 h1.1
    simp only [settingsCalls] at h2
    omega

/-- A run started with the schedules flag set never calls the schedules
endpoint. -/
theorem runTicks_schedules_loaded (envs : List FetchEnv) :
    ∀ c : Coordinator, c.state.schedulesLoaded = true →
      schedulesCalls (runTicks c envs).2 = 0 := by
  induction envs with
  | nil => intro c _; rfl
  | cons e rest ih =>
    intro c h
    have h1 := tick_keeps_schedules_loaded c e h
    simp only [runTicks, schedulesCalls, List.map_cons, List.sum_cons]
    have h2 := ih (tick c e).1 h1.1
    simp only [schedulesCalls] at h2
    omega

/-- A `Bool`-successful `Except` is an `ok`. -/
theorem exists_ok_of_exceptOk {α β : Type} {r : Except α β}
    (h : exceptOk r = true) : ∃ v, r = .ok v := by
  cases r with
  | ok v => exact ⟨v, rfl⟩
  | error e => simp [exceptOk] at h

/-- A first tick from an unloaded settings flag with successful mandatory
and settings fetches calls the settings endpoint exactly once and sets
the flag. -/
theorem tick_loads_settings (c : Coordinator) (env : FetchEnv)
    (ds v : Json) (hds : env.deviceStatus = .ok ds)
    (hst : env.settings = .ok v) (h : c.state.settingsLoaded = false) :
    (tick c env).1.state.settingsLoaded = true ∧
      List.count Resource.settings (tick c env).2.1 = 1 := by
  constructor
  · rw [tick_state c env ds hds]
    simp [hst, exceptOk]
  · have hcond : (if c.state.settingsLoaded = true then ([] : List Resource)
        else [Resource.settings]) = [Resource.settings] := by
      rw [h]
      rfl
    rw [tick_fetches c env ds hds, hcond]
    cases env.vitalsLeft <;> split_ifs <;> rfl

/-- The counters of a coordinator driven from construction by ticks whose
mandatory fetch succeeds follow `n % 2` and `n % 12`. -/
theorem stateAfter_counters (envs : Nat → FetchEnv)
    (h : ∀ i, exceptOk (envs i).deviceStatus = true) :
    ∀ n : Nat,
      (stateAfter envs Coordinator.initial n).state.baseCounter = n % 2 ∧
      (stateAfter envs Coordinator.initial n).state.vitalsCounter
        = n % 12 := by
  intro n
  induction n with
  | zero => exact ⟨rfl, rfl⟩
  | succ n ih =>
    obtain ⟨ds, hds⟩ := exists_ok_of_exceptOk (h n)
    have hstep := tick_state (stateAfter envs Coordinator.initial n)
      (envs n) ds hds
    constructor
    · have hb : (stateAfter envs Coordinator.initial (n + 1)).state.baseCounter
          = if 2 ≤ (stateAfter envs Coordinator.initial n).state.baseCounter + 1
            then 0
            else (stateAfter envs Coordinator.initial n).state.baseCounter
              + 1 := by
        simp only [stateAfter, hstep]
      rw [hb, ih.1]
      split <;> omega
    · have hv : (stateAfter envs Coordinator.initial (n + 1)).state.vitalsCounter
          = if 12 ≤ (stateAfter envs Coordinator.initial n).state.vitalsCounter + 1
            then 0
            else (stateAfter envs Coordinator.initial n).state.vitalsCounter
              + 1 := by
        simp only [stateAfter, hstep]
      rw [hv, ih.2]
      split <;> omega

/-- Claim C2: once the settings (resp. schedules) flag is true, a tick
neither fetches that resource nor clears the flag, so without an
invalidation the resource is fetched at most once after its first
successful fetch; `async_refresh_settings` / `async_refresh_schedules`
are what reset the flags; and for every run from a fresh coordinator
whose first-tick mandatory and settings fetches succeed the settings
endpoint is called exactly once — in particular exactly once over 100
all-successful ticks. -/
theorem load_once_settings_schedules :
    (∀ (c : Coordinator) (env : FetchEnv), c.state.settingsLoaded = true →
        (tick c env).1.state.settingsLoaded = true
          ∧ List.count Resource.settings (tick c env).2.1 = 0)
    ∧ (∀ (c : Coordinator) (env : FetchEnv),
        c.state.schedulesLoaded = true →
        (tick c env).1.state.schedulesLoaded = true
          ∧ List.count Resource.schedules (tick c env).2.1 = 0)
    ∧ (∀ c : Coordinator,
        (async_refresh_settings c).state.settingsLoaded = false
          ∧ (async_refresh_schedules c).state.schedulesLoaded = false)
    ∧ (∀ (env : FetchEnv) (envs : List FetchEnv) (ds v : Json),
        env.deviceStatus = .ok ds → env.settings = .ok v →
        settingsCalls (runTicks Coordinator.initial (env :: envs)).2 = 1)
    ∧ settingsCalls
        (runTicks Coordinator.initial (List.replicate 100 envAllOk)).2
          = 1 := by
  have key : ∀ (env : FetchEnv) (envs : List FetchEnv) (ds v : Json),
      env.deviceStatus = .ok ds → env.settings = .ok v →
      settingsCalls (runTicks Coordinator.initial (env :: envs)).2 = 1 := by
    intro env envs ds v hds hst
    have h1 := tick_loads_settings Coordinator.initial env ds v hds hst rfl
    have h2 := runTicks_settings_loaded envs (tick Coordinator.initial env).1
      h1.1
    simp only [runTicks, settingsCalls, List.map_cons, List.sum_cons]
    simp only [settingsCalls] at h2
    omega
  refine ⟨fun c env h => tick_keeps_settings_loaded c env h,
    fun c env h => tick_keeps_schedules_loaded c env h,
    fun c => ⟨rfl, rfl⟩, key, ?_⟩
  have hrep : List.replicate 100 envAllOk
      = envAllOk :: List.replicate 99 envAllOk := rfl
  rw [hrep]
  exact key envAllOk (List.replicate 99 envAllOk) _ _ rfl rfl

/-- Witness for C2: the loaded-flag clauses applied at a coordinator with
both flags set, and the exactly-once clause applied to a 3-tick
all-successful run. -/
theorem load_once_settings_schedules_witness :
    ((tick ⟨⟨0, 0, true, true⟩, none⟩ envAllOk).1.state.settingsLoaded
        = true
      ∧ List.count Resource.settings
          (tick ⟨⟨0, 0, true, true⟩, none⟩ envAllOk).2.1 = 0)
    ∧ ((tick ⟨⟨0, 0, true, true⟩, none⟩ envAllOk).1.state.schedulesLoaded
        = true
      ∧ List.count Resource.schedules
          (tick ⟨⟨0, 0, true, true⟩, none⟩ envAllOk).2.1 = 0)
    ∧ settingsCalls
        (runTicks Coordinator.initial
          (envAllOk :: [envAllOk, envAllOk])).2 = 1 :=
  ⟨load_once_settings_schedules.1 ⟨⟨0, 0, true, true⟩, none⟩ envAllOk rfl,
   load_once_settings_schedules.2.1 ⟨⟨0, 0, true, true⟩, none⟩ envAllOk
     rfl,
   load_once_settings_schedules.2.2.2.1 envAllOk [envAllOk, envAllOk] _ _
     rfl rfl⟩

/-- Claim C3: from a freshly constructed coordinator driven only by
on-schedule all-successful ticks, `base_control` is fetched exactly on
the ticks divisible by 2 (ratio `UPDATE_INTERVAL_BASE_CONTROL /
UPDATE_INTERVAL_DEVICE_STATUS = 2`), both vitals sides exactly on the
ticks divisible by 12, and after tick `n` the counters hold `n % 2` and
`n % 12` — i.e. each counter has been reset to 0 on the tick it fired. -/
theorem base_vitals_cadence (envs : Nat → FetchEnv)
    (h : ∀ i, (envs i).allOk) (n : Nat) (hn : 1 ≤ n) :
    (Resource.baseControl ∈ fetchedOnTick envs Coordinator.initial n
        ↔ n % 2 = 0)
    ∧ (Resource.vitalsLeft ∈ fetchedOnTick envs Coordinator.initial n
        ↔ n % 12 = 0)
    ∧ (Resource.vitalsRight ∈ fetchedOnTick envs Coordinator.initial n
        ↔ n % 12 = 0)
    ∧ (stateAfter envs Coordinator.initial n).state.baseCounter = n % 2
    ∧ (stateAfter envs Coordinator.initial n).state.vitalsCounter
        = n % 12 := by
  have hdev : ∀ i, exceptOk (envs i).deviceStatus = true := fun i =>
    (h i).1
  have hctr := stateAfter_counters envs hdev
  obtain ⟨ds, hds⟩ := exists_ok_of_exceptOk (hdev (n - 1))
  obtain ⟨lv, hlv⟩ := exists_ok_of_exceptOk (h (n - 1)).2.2.2.2.1
  have hfetch := tick_fetches (stateAfter envs Coordinator.initial (n - 1))
    (envs (n - 1)) ds hds
  refine ⟨?_, ?_, ?_, (hctr n).1, (hctr n).2⟩ <;>
    · unfold fetchedOnTick
      rw [hfetch, (hctr (n - 1)).1, (hctr (n - 1)).2, hlv]
      have h2 := Nat.mod_lt (n - 1) (show 0 < 2 by omega)
      have h12 := Nat.mod_lt (n - 1) (show 0 < 12 by omega)
      simp only [List.mem_cons, List.mem_append]
      split_ifs <;> simp <;> omega

/-- Witness for C3: the constant all-successful environment at ticks 12
(both cadences fire) — hypotheses discharged by `decide`. -/
theorem base_vitals_cadence_witness :
    (Resource.baseControl ∈
        fetchedOnTick (fun _ => envAllOk) Coordinator.initial 12
      ↔ 12 % 2 = 0)
    ∧ (Resource.vitalsLeft ∈
        fetchedOnTick (fun _ => envAllOk) Coordinator.initial 12
      ↔ 12 % 12 = 0)
    ∧ (Resource.vitalsRight ∈
        fetchedOnTick (fun _ => envAllOk) Coordinator.initial 12
      ↔ 12 % 12 = 0)
    ∧ (stateAfter (fun _ => envAllOk) Coordinator.initial 12).state.baseCounter
        = 12 % 2
    ∧ (stateAfter (fun _ => envAllOk) Coordinator.initial 12).state.vitalsCounter
        = 12 % 12 :=
  base_vitals_cadence (fun _ => envAllOk)
    (fun _ => (by decide : envAllOk.allOk)) 12 (by decide)
